import Mathlib

/-!
Verification development for the chat widget in `src/app/page.tsx`
(the `"use client"` component: `ChatInterface`, `sendMessage`,
`toggleDarkMode` and the theme effects).

The component is embedded shallowly:
* decoded JSON reply bodies become the inductive `Json`;
* the response normalization in `sendMessage` becomes `normalizeResponse`;
* the message store / loading flag / input draft become `ChatState`,
  and `sendMessage` becomes a pure step function parameterised by the
  fetch outcome supplied by the environment;
* the theme preference becomes pure functions over a small environment
  record mirroring `localStorage` and the document class list.

JavaScript `Date` values (message timestamps) are presentation data that
no verified property depends on, so they are not carried in the model.
JSON numbers are modelled as integers: the properties at issue depend
only on truthiness and serialization of small literals.
-/

/-- A decoded JSON value, as produced by `response.json()`. -/
inductive Json where
  | str : String → Json
  | num : Int → Json
  | bool : Bool → Json
  | null : Json
  | arr : List Json → Json
  | obj : List (String × Json) → Json
deriving Repr

/-- JavaScript truthiness of a decoded JSON value
(`""`, `0`, `false` and `null` are falsy; arrays and objects are truthy). -/
def Json.truthy : Json → Bool
  | .str s => !(s == "")
  | .num n => !(n == 0)
  | .bool b => b
  | .null => false
  | .arr _ => true
  | .obj _ => true

/-- JavaScript `typeof data === 'string'`. -/
def Json.isString : Json → Bool
  | .str _ => true
  | _ => false

/-- JavaScript `typeof data === 'object'`: true for objects, arrays and `null`. -/
def Json.isObjectType : Json → Bool
  | .obj _ => true
  | .arr _ => true
  | .null => true
  | _ => false

/-- The V8 `TypeError` message raised by reading a property of `null`. -/
def nullReadMsg (field : String) : String :=
  "Cannot read properties of null (reading \x27" ++ field ++ "\x27)"

/-- JavaScript property read `data.field` on a decoded JSON value:
a `TypeError` on `null`, the property value on an object that has the
key, and `undefined` (`none`) everywhere else. -/
def Json.getProp : Json → String → Except String (Option Json)
  | .null, field => .error (nullReadMsg field)
  | .obj kvs, field => .ok (kvs.lookup field)
  | _, _ => .ok none

/-- Total property lookup: the key's value on an object, `undefined`
(`none`) on every other value, `null` included. Used to state properties
of `normalizeResponse` away from the throwing case. -/
def Json.prop? : Json → String → Option Json
  | .obj kvs, field => kvs.lookup field
  | _, _ => none

/-- Truthiness of a possibly-`undefined` JavaScript value. -/
def optTruthy : Option Json → Bool
  | none => false
  | some v => v.truthy

/-- String escaping of `JSON.stringify` (the escapes relevant here). -/
def escapeChar (c : Char) : String :=
  if c = '"' then "\\\""
  else if c = '\\' then "\\\\"
  else if c = '\n' then "\\n"
  else if c = '\t' then "\\t"
  else if c = '\r' then "\\r"
  else String.singleton c

/-- A JSON string literal as produced by `JSON.stringify`. -/
def quoteStr (s : String) : String :=
  "\"" ++ String.join (s.toList.map escapeChar) ++ "\""

mutual

/-- `JSON.stringify` on a decoded JSON value. -/
def stringify : Json → String
  | .str s => quoteStr s
  | .num n => toString n
  | .bool b => if b then "true" else "false"
  | .null => "null"
  | .arr xs => "[" ++ stringifyArr xs ++ "]"
  | .obj kvs => "\x7b" ++ stringifyObj kvs ++ "\x7d"

/-- Comma-separated serialization of array elements. -/
def stringifyArr : List Json → String
  | [] => ""
  | [x] => stringify x
  | x :: xs => stringify x ++ "," ++ stringifyArr xs

/-- Comma-separated serialization of object members. -/
def stringifyObj : List (String × Json) → String
  | [] => ""
  | [(k, v)] => quoteStr k ++ ":" ++ stringify v
  | (k, v) :: kvs => quoteStr k ++ ":" ++ stringify v ++ "," ++ stringifyObj kvs

end

/-- The fixed fallback sentence substituted for a falsy resolved value. -/
def fallbackText : String :=
  "I received your message but couldn\x27t generate a proper response."

/-- The response normalization of `sendMessage` (page.tsx lines 317-330):

`if (typeof data === 'string') responseText = data;
else if (data.response) responseText = data.response;
else if (data.message) responseText = data.message;
else if (typeof data === 'object' && data.content) responseText = data.content;
else responseText = JSON.stringify(data);`

A `null` body throws a `TypeError` at `data.response`, carried here in
the `Except` error channel. -/
def normalizeResponse (data : Json) : Except String Json :=
  if data.isString then .ok data
  else
    match data.getProp "response" with
    | .error m => .error m
    | .ok rf =>
      if optTruthy rf then .ok (rf.getD Json.null)
      else
        match data.getProp "message" with
        | .error m => .error m
        | .ok mf =>
          if optTruthy mf then .ok (mf.getD Json.null)
          else if data.isObjectType then
            match data.getProp "content" with
            | .error m => .error m
            | .ok cf =>
              if optTruthy cf then .ok (cf.getD Json.null)
              else .ok (.str (stringify data))
          else .ok (.str (stringify data))

example : normalizeResponse (Json.str "hello") = .ok (Json.str "hello") := by rfl
example : normalizeResponse (Json.obj [("response", Json.str "x")]) = .ok (Json.str "x") := by rfl
example : normalizeResponse (Json.obj [("message", Json.str "y")]) = .ok (Json.str "y") := by rfl
example : normalizeResponse (Json.obj [("content", Json.str "z")]) = .ok (Json.str "z") := by rfl
example : normalizeResponse (Json.obj [("other", Json.num 1)]) = .ok (Json.str "\x7b\"other\":1\x7d") := by rfl
example : normalizeResponse Json.null = .error (nullReadMsg "response") := by rfl
example : normalizeResponse (Json.obj [("response", Json.str ""), ("message", Json.str "y")]) = .ok (Json.str "y") := by rfl

/-- JavaScript `inputMessage.trim()`: strip leading and trailing
whitespace. Implemented by structural recursion so that it reduces. -/
def dropLeadingWs : List Char → List Char
  | [] => []
  | c :: cs => if c.isWhitespace then dropLeadingWs cs else c :: cs

/-- JavaScript string `trim()` over both ends. -/
def jsTrim (s : String) : String :=
  String.mk ((dropLeadingWs ((dropLeadingWs s.toList).reverse)).reverse)

/-- Who authored a message. -/
inductive Sender where
  | user : Sender
  | agent : Sender
deriving DecidableEq, Repr

/-- A chat message. `text` is kept as a decoded JSON value because the
normalizer can assign a non-string (e.g. a numeric `message` field) to
`responseText`; all texts written by the component itself are strings.
The `Date` timestamp is presentation data and is not modelled. -/
structure Message where
  id : Nat
  text : Json
  sender : Sender
  isError : Bool
deriving Repr

/-- The component state relevant to the verified properties:
`messages`, `inputMessage`, `isLoading`, `isDarkMode`. -/
structure ChatState where
  messages : List Message
  inputMessage : String
  isLoading : Bool
  isDarkMode : Bool
deriving Repr

/-- The initial greeting message (id 1). -/
def welcomeText : String :=
  "Hello! I\x27m your AI agent. You can ask me anything, including checking weather in different cities. Try typing \x27Check weather in Karachi\x27 to see me in action!"

/-- The component's initial state. -/
def initialState : ChatState :=
  { messages := [⟨1, Json.str welcomeText, Sender.agent, false⟩]
    inputMessage := ""
    isLoading := false
    isDarkMode := false }

/-- JavaScript truthiness of `process.env.NEXT_PUBLIC_FASTAPI`:
`none` models an unset variable, and the empty string is also falsy. -/
def cfgTruthy : Option String → Bool
  | none => false
  | some u => !(u == "")

/-- Whether the character list starts with the pattern. -/
def charsStartWith : List Char → List Char → Bool
  | [], _ => true
  | _ :: _, [] => false
  | a :: as, b :: bs => a == b && charsStartWith as bs

/-- Whether the pattern occurs somewhere in the character list. -/
def charsContain (pat : List Char) : List Char → Bool
  | [] => pat.isEmpty
  | c :: cs => charsStartWith pat (c :: cs) || charsContain pat cs

/-- JavaScript `s.includes(pat)`: substring containment. -/
def strContainsSub (s pat : String) : Bool :=
  charsContain pat.toList s.toList

/-- A value thrown inside the `try` block: either an `Error` instance
carrying its `message`, or some non-`Error` value. -/
inductive JsError where
  | error : String → JsError
  | nonError : JsError
deriving DecidableEq, Repr

/-- The outcome the environment supplies for the single `fetch` call:
either the fetch promise rejects with a thrown value, or an HTTP
response arrives with a status and a body whose JSON decoding either
fails (`SyntaxError` message) or yields a value. -/
inductive FetchOutcome where
  | reject : JsError → FetchOutcome
  | response : Nat → Except String Json → FetchOutcome
deriving Repr


/-- The configuration-missing error text (page.tsx line 282). -/
def configErrorText : String :=
  "FASTAPI environment variable is not configured. Please set NEXT_PUBLIC_FASTAPI in your environment variables."

/-- The CORS / connectivity hint (page.tsx line 346). -/
def corsText : String :=
  "Unable to connect to the AI agent. This might be a CORS issue - the API needs to allow requests from this origin."

/-- The internal-error wording (page.tsx line 348). -/
def internalErrText : String :=
  "The AI agent encountered an internal error. Please try again."

/-- The endpoint-not-found wording (page.tsx line 350). -/
def notFoundText : String :=
  "API endpoint not found. Please check the URL."

/-- The generic-error wording prefixed to the underlying message (line 352). -/
def genericErrPre : String :=
  "Sorry, I encountered an error: "

/-- The non-`Error` exception wording (page.tsx line 355). -/
def unknownErrText : String :=
  "An unknown error occurred."

/-- The `Error` message thrown for a non-ok HTTP status (page.tsx line 312). -/
def httpErrorMsg (status : Nat) : String :=
  "HTTP error! status: " ++ toString status

/-- The catch-block mapping from a thrown value to the displayed error
text (page.tsx lines 343-356): substring probes on `error.message`, in
order `Failed to fetch`, `500`, `404`, else generic; non-`Error`
values give the unknown-error wording. -/
def errorTextOf : JsError → String
  | .error msg =>
    if strContainsSub msg "Failed to fetch" then corsText
    else if strContainsSub msg "500" then internalErrText
    else if strContainsSub msg "404" then notFoundText
    else genericErrPre ++ msg
  | .nonError => unknownErrText

/-- The `try` block after the request is issued (page.tsx lines 311-334):
throw on a non-ok status, decode the body, normalize it, and apply the
`responseText || fallback` substitution; the error channel carries the
value reaching `catch`. -/
def tryResult : FetchOutcome → Except JsError Json
  | .reject e => .error e
  | .response status body =>
    if 200 ≤ status ∧ status ≤ 299 then
      match body with
      | .error m => .error (.error m)
      | .ok data =>
        match normalizeResponse data with
        | .error m => .error (.error m)
        | .ok v => .ok (if v.truthy then v else .str fallbackText)
    else .error (.error (httpErrorMsg status))

/-- What `sendMessage` did before any suspension: nothing (guard), a
configuration error, or an issued request carrying the POSTed body. -/
inductive StartOutcome where
  | noop : StartOutcome
  | configError : StartOutcome
  | issued : Json → StartOutcome
deriving Repr

/-- The synchronous prefix of `sendMessage` (page.tsx lines 275-309):
the guard `!inputMessage.trim() || isLoading`, the missing-configuration
short circuit appending an error with id `messages.length + 2`, and
otherwise the user-message append (id `messages.length + 1`), draft
clear, loading set, and the fetch with body `{ message: inputMessage }`. -/
def sendMessageStart (cfg : Option String) (s : ChatState) : ChatState × StartOutcome :=
  if jsTrim s.inputMessage = "" ∨ s.isLoading = true then (s, .noop)
  else if cfgTruthy cfg = false then
    ({ s with messages :=
        s.messages ++ [⟨s.messages.length + 2, Json.str configErrorText, Sender.agent, true⟩] },
     .configError)
  else
    ({ s with
        messages := s.messages ++ [⟨s.messages.length + 1, Json.str s.inputMessage, Sender.user, false⟩]
        inputMessage := ""
        isLoading := true },
     .issued (Json.obj [("message", Json.str s.inputMessage)]))

/-- The settlement of `sendMessage` (page.tsx lines 311-370): append the
agent or error message with id `messages.length + 2` computed from the
closure's pre-submission `messages`, then the `finally` clears the
loading flag. -/
def sendMessageSettle (preMsgs : List Message) (o : FetchOutcome) (s : ChatState) : ChatState :=
  let s' : ChatState :=
    match tryResult o with
    | .ok text =>
      { s with messages := s.messages ++ [⟨preMsgs.length + 2, text, Sender.agent, false⟩] }
    | .error e =>
      { s with messages := s.messages ++ [⟨preMsgs.length + 2, Json.str (errorTextOf e), Sender.agent, true⟩] }
  { s' with isLoading := false }

/-- One complete run of `sendMessage`, returning the final state and the
number of `fetch` invocations performed. -/
def sendMessage (cfg : Option String) (o : FetchOutcome) (s : ChatState) : ChatState × Nat :=
  match sendMessageStart cfg s with
  | (s', StartOutcome.noop) => (s', 0)
  | (s', StartOutcome.configError) => (s', 0)
  | (s', StartOutcome.issued _) => (sendMessageSettle s.messages o s', 1)


/-- The configuration error message appended from state `s`. -/
def configErrMsgOf (s : ChatState) : Message :=
  ⟨s.messages.length + 2, Json.str configErrorText, Sender.agent, true⟩

/-- The user message appended from state `s`. -/
def userMsgOf (s : ChatState) : Message :=
  ⟨s.messages.length + 1, Json.str s.inputMessage, Sender.user, false⟩

/-- The agent or error message appended at settlement, from the
pre-submission state `s` and the fetch outcome. -/
def settleMsgOf (s : ChatState) (o : FetchOutcome) : Message :=
  match tryResult o with
  | .ok t => ⟨s.messages.length + 2, t, Sender.agent, false⟩
  | .error e => ⟨s.messages.length + 2, Json.str (errorTextOf e), Sender.agent, true⟩

theorem sendMessage_guard (cfg : Option String) (o : FetchOutcome) (s : ChatState)
    (h : jsTrim s.inputMessage = "" ∨ s.isLoading = true) :
    sendMessage cfg o s = (s, 0) := by
  unfold sendMessage sendMessageStart
  rw [if_pos h]

theorem sendMessage_config (cfg : Option String) (o : FetchOutcome) (s : ChatState)
    (h1 : ¬(jsTrim s.inputMessage = "" ∨ s.isLoading = true)) (h3 : cfgTruthy cfg = false) :
    sendMessage cfg o s =
      ({ s with messages := s.messages ++ [configErrMsgOf s] }, 0) := by
  unfold sendMessage sendMessageStart configErrMsgOf
  rw [if_neg h1, if_pos h3]

theorem sendMessageStart_issued (cfg : Option String) (s : ChatState)
    (h1 : ¬(jsTrim s.inputMessage = "" ∨ s.isLoading = true)) (h3 : cfgTruthy cfg = true) :
    sendMessageStart cfg s =
      ({ s with
          messages := s.messages ++ [userMsgOf s]
          inputMessage := ""
          isLoading := true },
       StartOutcome.issued (Json.obj [("message", Json.str s.inputMessage)])) := by
  unfold sendMessageStart userMsgOf
  rw [if_neg h1, if_neg (by simp [h3])]

theorem sendMessage_issued (cfg : Option String) (o : FetchOutcome) (s : ChatState)
    (h1 : ¬(jsTrim s.inputMessage = "" ∨ s.isLoading = true)) (h3 : cfgTruthy cfg = true) :
    sendMessage cfg o s =
      ({ s with
          messages := s.messages ++ [userMsgOf s, settleMsgOf s o]
          inputMessage := ""
          isLoading := false },
       1) := by
  unfold sendMessage
  rw [sendMessageStart_issued cfg s h1 h3]
  unfold sendMessageSettle settleMsgOf
  cases tryResult o <;> simp


/-- The browser state the theme logic touches: the `theme` key in
`localStorage` and whether the document root carries the `dark` class. -/
structure ThemeEnv where
  storedTheme : Option String
  documentDark : Bool
deriving DecidableEq, Repr

/-- `toggleDarkMode` (page.tsx lines 263-265). -/
def toggleDarkMode (isDarkMode : Bool) : Bool := !isDarkMode

/-- The dark-mode effect (page.tsx lines 253-261): mirror the flag onto
the document class list and persist `"dark"` or `"light"`. -/
def applyTheme (isDarkMode : Bool) (_env : ThemeEnv) : ThemeEnv :=
  if isDarkMode then { storedTheme := some "dark", documentDark := true }
  else { storedTheme := some "light", documentDark := false }

/-- JavaScript falsiness of `localStorage.getItem('theme')`:
`null` (absent) and the empty string are falsy. -/
def strOptFalsy : Option String → Bool
  | none => true
  | some s => s == ""

/-- The initialization effect (page.tsx lines 246-250):
`savedTheme === 'dark' || (!savedTheme && prefersDark)`. -/
def initTheme (savedTheme : Option String) (prefersDark : Bool) : Bool :=
  (savedTheme == some "dark") || (strOptFalsy savedTheme && prefersDark)

/-- A user-driven operation within one session: editing the draft (typing,
or the example button), submitting (with the fetch outcome the environment
will supply if a request is issued), or toggling the theme. -/
inductive Event where
  | edit : String → Event
  | submit : FetchOutcome → Event
  | toggleTheme : Event

/-- One session step. The endpoint configuration is a module-level
constant, fixed for the whole session. -/
def stepEvent (cfg : Option String) (s : ChatState) : Event → ChatState
  | .edit t => { s with inputMessage := t }
  | .submit o => (sendMessage cfg o s).1
  | .toggleTheme => { s with isDarkMode := toggleDarkMode s.isDarkMode }

/-- The state reached from the initial state by a sequence of events. -/
def runEvents (cfg : Option String) (events : List Event) : ChatState :=
  events.foldl (stepEvent cfg) initialState

/-- The ids held in the message store, in order. -/
def idsOf (s : ChatState) : List Nat := s.messages.map Message.id

/-- Bound on every id in the store: the length when the endpoint is
configured (ids are then exactly 1..length), one more when it is not
(the configuration error path numbers its message `length + 2`). -/
def idBound (cfg : Option String) (s : ChatState) : Nat :=
  if cfgTruthy cfg = true then s.messages.length else s.messages.length + 1

/-- Store invariant: ids strictly increase along the store and never
exceed `idBound`. -/
def StoreInv (cfg : Option String) (s : ChatState) : Prop :=
  List.Pairwise (· < ·) (idsOf s) ∧ ∀ m ∈ s.messages, m.id ≤ idBound cfg s

theorem storeInv_initial (cfg : Option String) : StoreInv cfg initialState := by
  constructor
  · simp [idsOf, initialState]
  · intro m hm
    simp [initialState] at hm
    subst hm
    simp [idBound, initialState]
    split <;> simp

theorem storeInv_step (cfg : Option String) (s : ChatState) (e : Event)
    (h : StoreInv cfg s) : StoreInv cfg (stepEvent cfg s e) := by
  obtain ⟨hp, hb⟩ := h
  cases e with
  | edit t => exact ⟨hp, hb⟩
  | toggleTheme => exact ⟨hp, hb⟩
  | submit o =>
    by_cases hg : jsTrim s.inputMessage = "" ∨ s.isLoading = true
    · simpa [stepEvent, sendMessage_guard cfg o s hg] using ⟨hp, hb⟩
    · by_cases hc : cfgTruthy cfg = true
      · have hlen : ∀ m ∈ s.messages, m.id ≤ s.messages.length := by
          intro m hm
          have := hb m hm
          simpa [idBound, hc] using this
        constructor
        · simp only [stepEvent, sendMessage_issued cfg o s hg hc, idsOf, List.map_append,
            List.pairwise_append]
          refine ⟨hp, ?_, ?_⟩
          · simp [userMsgOf, settleMsgOf]
            cases tryResult o <;> simp
          · intro a ha b hbm
            simp only [List.mem_map] at ha
            obtain ⟨m, hm, rfl⟩ := ha
            have := hlen m hm
            simp [userMsgOf, settleMsgOf] at hbm
            rcases hbm with hbm | hbm
            · omega
            · cases htr : tryResult o <;> simp [htr] at hbm <;> omega
        · intro m hm
          simp only [stepEvent, sendMessage_issued cfg o s hg hc, List.mem_append] at hm
          simp only [stepEvent, sendMessage_issued cfg o s hg hc, idBound, hc, if_pos]
          rcases hm with hm | hm
          · have := hlen m hm
            simp
            omega
          · simp [userMsgOf, settleMsgOf] at hm
            rcases hm with rfl | hm
            · simp
            · cases htr : tryResult o <;> simp [htr] at hm <;> subst hm <;> simp
      · have hc' : cfgTruthy cfg = false := by
          cases hcv : cfgTruthy cfg
          · rfl
          · exact absurd hcv hc
        have hlen : ∀ m ∈ s.messages, m.id ≤ s.messages.length + 1 := by
          intro m hm
          have := hb m hm
          simpa [idBound, hc'] using this
        constructor
        · simp only [stepEvent, sendMessage_config cfg o s hg hc', idsOf, List.map_append,
            List.pairwise_append]
          refine ⟨hp, by simp [configErrMsgOf], ?_⟩
          intro a ha b hbm
          simp only [List.mem_map] at ha
          obtain ⟨m, hm, rfl⟩ := ha
          have := hlen m hm
          simp [configErrMsgOf] at hbm
          omega
        · intro m hm
          simp only [stepEvent, sendMessage_config cfg o s hg hc', List.mem_append] at hm
          simp only [stepEvent, sendMessage_config cfg o s hg hc', idBound, hc']
          rcases hm with hm | hm
          · have := hlen m hm
            simp
            omega
          · simp [configErrMsgOf] at hm
            subst hm
            simp

theorem storeInv_runEvents (cfg : Option String) (events : List Event) :
    StoreInv cfg (runEvents cfg events) := by
  have key : ∀ s, StoreInv cfg s → StoreInv cfg (events.foldl (stepEvent cfg) s) := by
    induction events with
    | nil => intro s hs; exact hs
    | cons e es ih => intro s hs; exact ih _ (storeInv_step cfg s e hs)
  exact key initialState (storeInv_initial cfg)


theorem getLast_append_one {α : Type} (l : List α) (a : α) :
    (l ++ [a]).getLast? = some a := by
  induction l with
  | nil => rfl
  | cons x xs ih =>
    rw [List.cons_append, List.getLast?_cons]
    simp [List.getLastD_eq_getLast?, ih]

theorem getLast_append_two {α : Type} (l : List α) (a b : α) :
    (l ++ [a, b]).getLast? = some b := by
  have : l ++ [a, b] = (l ++ [a]) ++ [b] := by simp
  rw [this, getLast_append_one]

/-- C1 (amended): the normalizer follows the fixed precedence with the
first *truthy* match winning: a string body is used verbatim; otherwise,
on a non-`null` body, a truthy `response` property wins, then a truthy
`message` property, then — when the body is of object type — a truthy
`content` property, and otherwise the whole body is serialized back to a
JSON string; a `null` body instead raises a `TypeError`. -/
theorem normalize_precedence (d : Json) :
    (∀ s, d = Json.str s → normalizeResponse d = .ok d) ∧
    (d = Json.null → normalizeResponse d = .error (nullReadMsg "response")) ∧
    (d.isString = false → d ≠ Json.null →
      normalizeResponse d = .ok (
        if optTruthy (d.prop? "response") then (d.prop? "response").getD Json.null
        else if optTruthy (d.prop? "message") then (d.prop? "message").getD Json.null
        else if d.isObjectType && optTruthy (d.prop? "content") then
          (d.prop? "content").getD Json.null
        else Json.str (stringify d))) := by
  refine ⟨?_, ?_, ?_⟩
  · rintro s rfl
    simp [normalizeResponse, Json.isString]
  · rintro rfl
    rfl
  · intro hs hn
    cases d with
    | str s => simp [Json.isString] at hs
    | null => exact absurd rfl hn
    | num n =>
      simp [normalizeResponse, Json.isString, Json.getProp, Json.prop?, optTruthy,
        Json.isObjectType]
    | bool b =>
      simp [normalizeResponse, Json.isString, Json.getProp, Json.prop?, optTruthy,
        Json.isObjectType]
    | arr xs =>
      simp [normalizeResponse, Json.isString, Json.getProp, Json.prop?, optTruthy,
        Json.isObjectType]
    | obj kvs =>
      simp only [normalizeResponse, Json.isString, Json.getProp, Json.prop?, optTruthy,
        Json.isObjectType, Bool.true_and, if_false, Bool.false_eq_true]
      split_ifs <;> simp_all

theorem normalize_precedence_witness :
    normalizeResponse (Json.obj [("message", Json.str "y")]) = .ok (Json.str "y") := by
  have h := (normalize_precedence (Json.obj [("message", Json.str "y")])).2.2 (by rfl)
    (by intro h; exact Json.noConfusion h)
  rw [h]
  rfl

/-- C1 counterexample: the claim as stated says an object with a
`response` field uses that field's value; on
`{response: "", message: "y"}` the code returns `"y"`, not `""`. -/
theorem normalize_precedence_counterexample :
    normalizeResponse (Json.obj [("response", Json.str ""), ("message", Json.str "y")]) =
      .ok (Json.str "y") ∧
    Json.str "y" ≠ Json.str "" := by
  refine ⟨rfl, ?_⟩
  intro h
  injection h with h2
  exact absurd h2 (by decide)

/-- C4: an empty-after-trim draft, or a submission while a request is
pending, is a complete no-op: the state (message store, pending flag,
draft) is unchanged and no fetch happens. -/
theorem rejected_submit_noop (cfg : Option String) (o : FetchOutcome) (s : ChatState)
    (h : jsTrim s.inputMessage = "" ∨ s.isLoading = true) :
    sendMessage cfg o s = (s, 0) :=
  sendMessage_guard cfg o s h

theorem rejected_submit_noop_witness :
    sendMessage (some "u") (FetchOutcome.reject JsError.nonError)
        { initialState with inputMessage := "   " } =
      ({ initialState with inputMessage := "   " }, 0) :=
  rejected_submit_noop (some "u") (FetchOutcome.reject JsError.nonError)
    { initialState with inputMessage := "   " } (Or.inl (by decide))

/-- C9: double-toggling the theme restores the original boolean; after a
toggle the persisted entry is exactly `"dark"` when the flag is true and
`"light"` when false, and re-initialization from that entry restores the
same boolean. -/
theorem theme_toggle_roundtrip (dark : Bool) (env : ThemeEnv) (prefersDark : Bool) :
    toggleDarkMode (toggleDarkMode dark) = dark ∧
    (applyTheme (toggleDarkMode dark) env).storedTheme =
      some (if toggleDarkMode dark then "dark" else "light") ∧
    initTheme (applyTheme (toggleDarkMode dark) env).storedTheme prefersDark =
      toggleDarkMode dark := by
  cases dark <;> simp [toggleDarkMode, applyTheme, initTheme, strOptFalsy]


theorem sendMessage_issued_getLast (cfg : Option String) (o : FetchOutcome) (s : ChatState)
    (h1 : ¬(jsTrim s.inputMessage = "" ∨ s.isLoading = true)) (h3 : cfgTruthy cfg = true) :
    ((sendMessage cfg o s).1.messages).getLast? = some (settleMsgOf s o) := by
  rw [sendMessage_issued cfg o s h1 h3]
  exact getLast_append_two s.messages (userMsgOf s) (settleMsgOf s o)

/-- C2 (amended): a successful response whose body normalizes to a falsy
value — in particular the body `""` — yields the fixed fallback sentence
in a non-error agent message; the body `null` instead raises a
`TypeError` in the normalizer, so the appended message is the generic
error message and is marked as an error. -/
theorem falsy_resolved_fallback (cfg : Option String) (s : ChatState) (data : Json)
    (h1 : ¬(jsTrim s.inputMessage = "" ∨ s.isLoading = true)) (h3 : cfgTruthy cfg = true) :
    (∀ v, normalizeResponse data = .ok v → v.truthy = false →
      ((sendMessage cfg (.response 200 (.ok data)) s).1.messages).getLast? =
        some ⟨s.messages.length + 2, Json.str fallbackText, Sender.agent, false⟩) ∧
    (data = Json.null →
      ((sendMessage cfg (.response 200 (.ok data)) s).1.messages).getLast? =
        some ⟨s.messages.length + 2, Json.str (genericErrPre ++ nullReadMsg "response"),
          Sender.agent, true⟩) := by
  constructor
  · intro v hv htr
    rw [sendMessage_issued_getLast cfg _ s h1 h3]
    simp [settleMsgOf, tryResult, hv, htr]
  · rintro rfl
    rw [sendMessage_issued_getLast cfg _ s h1 h3]
    rfl

theorem falsy_resolved_fallback_witness :
    ((sendMessage (some "u") (FetchOutcome.response 200 (.ok (Json.str "")))
        { initialState with inputMessage := "hi" }).1.messages).getLast? =
      some ⟨3, Json.str fallbackText, Sender.agent, false⟩ := by
  have h := (falsy_resolved_fallback (some "u") { initialState with inputMessage := "hi" }
      (Json.str "") (by decide) rfl).1 (Json.str "") rfl rfl
  simpa using h

/-- C2 counterexample: the claim as stated says the body `null` yields
the fallback sentence and no error flag; the code appends an error
message (the normalizer throws a `TypeError` on `null`). -/
theorem null_body_yields_error :
    ((((sendMessage (some "u") (FetchOutcome.response 200 (.ok Json.null))
        { initialState with inputMessage := "hi" }).1.messages).getLast?).map Message.isError =
      some true) ∧
    ((((sendMessage (some "u") (FetchOutcome.response 200 (.ok Json.null))
        { initialState with inputMessage := "hi" }).1.messages).getLast?).map Message.text =
      some (Json.str (genericErrPre ++ nullReadMsg "response"))) ∧
    genericErrPre ++ nullReadMsg "response" ≠ fallbackText := by
  refine ⟨rfl, rfl, by decide⟩

/-- C3 (amended): for every accepted submission with the endpoint
configured, exactly one user message and then exactly one agent/error
message are appended, so the store grows by exactly 2, for every fetch
outcome; in the missing-configuration case no user message is appended
and the store grows by exactly 1 (the configuration error message). -/
theorem submit_growth (cfg : Option String) (o : FetchOutcome) (s : ChatState)
    (h1 : ¬(jsTrim s.inputMessage = "" ∨ s.isLoading = true)) :
    (cfgTruthy cfg = true →
      (sendMessage cfg o s).1.messages = s.messages ++ [userMsgOf s, settleMsgOf s o] ∧
      (userMsgOf s).sender = Sender.user ∧
      (settleMsgOf s o).sender = Sender.agent ∧
      ((sendMessage cfg o s).1.messages).length = s.messages.length + 2 ∧
      (sendMessage cfg o s).2 = 1) ∧
    (cfgTruthy cfg = false →
      (sendMessage cfg o s).1.messages = s.messages ++ [configErrMsgOf s] ∧
      ((sendMessage cfg o s).1.messages).length = s.messages.length + 1 ∧
      (sendMessage cfg o s).2 = 0) := by
  constructor
  · intro hc
    rw [sendMessage_issued cfg o s h1 hc]
    refine ⟨rfl, rfl, ?_, by simp, rfl⟩
    unfold settleMsgOf
    cases tryResult o <;> rfl
  · intro hc
    rw [sendMessage_config cfg o s h1 hc]
    exact ⟨rfl, by simp, rfl⟩

theorem submit_growth_witness :
    ((sendMessage (some "u") (FetchOutcome.response 200 (.ok (Json.str "ok")))
        { initialState with inputMessage := "hi" }).1.messages).length = 3 := by
  have h := (submit_growth (some "u") (FetchOutcome.response 200 (.ok (Json.str "ok")))
      { initialState with inputMessage := "hi" } (by decide)).1 rfl
  simpa using h.2.2.2.1

/-- C3 counterexample: with the endpoint configuration missing, an
accepted submission grows the store by 1, not 2 — only the configuration
error message is appended, no user message. -/
theorem missing_config_grows_one :
    ((sendMessage none (FetchOutcome.response 200 (.ok (Json.str "ok")))
        { initialState with inputMessage := "hi" }).1.messages).length = 2 ∧
    ({ initialState with inputMessage := "hi" } : ChatState).messages.length = 1 ∧
    (2 : Nat) ≠ 1 + 2 := by
  refine ⟨rfl, rfl, by decide⟩


/-- C5 (amended): the catch block maps the thrown value by substring
probes on `error.message`, in order: a message containing
`Failed to fetch` gives the CORS/connectivity hint; else one containing
`500` (as the thrown message for HTTP status 500 does) gives the
internal-error wording; else one containing `404` (as for status 404)
gives the endpoint-not-found wording; any other `Error` gives the
generic message including the underlying text — in particular status 503
(500-class) gives the generic wording, not the internal-error one — and
a non-`Error` thrown value gives the unknown-error message. -/
theorem error_text_mapping (cfg : Option String) (s : ChatState)
    (h1 : ¬(jsTrim s.inputMessage = "" ∨ s.isLoading = true)) (h3 : cfgTruthy cfg = true) :
    (∀ body, ((sendMessage cfg (.response 500 body) s).1.messages).getLast? =
      some ⟨s.messages.length + 2, Json.str internalErrText, Sender.agent, true⟩) ∧
    (∀ body, ((sendMessage cfg (.response 404 body) s).1.messages).getLast? =
      some ⟨s.messages.length + 2, Json.str notFoundText, Sender.agent, true⟩) ∧
    (∀ body, ((sendMessage cfg (.response 503 body) s).1.messages).getLast? =
      some ⟨s.messages.length + 2, Json.str (genericErrPre ++ httpErrorMsg 503),
        Sender.agent, true⟩) ∧
    (∀ msg, strContainsSub msg "Failed to fetch" = true →
      ((sendMessage cfg (.reject (.error msg)) s).1.messages).getLast? =
        some ⟨s.messages.length + 2, Json.str corsText, Sender.agent, true⟩) ∧
    (∀ msg, strContainsSub msg "Failed to fetch" = false →
      strContainsSub msg "500" = false → strContainsSub msg "404" = false →
      ((sendMessage cfg (.reject (.error msg)) s).1.messages).getLast? =
        some ⟨s.messages.length + 2, Json.str (genericErrPre ++ msg), Sender.agent, true⟩) ∧
    (((sendMessage cfg (.reject JsError.nonError) s).1.messages).getLast? =
      some ⟨s.messages.length + 2, Json.str unknownErrText, Sender.agent, true⟩) := by
  refine ⟨?_, ?_, ?_, ?_, ?_, ?_⟩
  · intro body
    rw [sendMessage_issued_getLast cfg _ s h1 h3]
    rfl
  · intro body
    rw [sendMessage_issued_getLast cfg _ s h1 h3]
    rfl
  · intro body
    rw [sendMessage_issued_getLast cfg _ s h1 h3]
    rfl
  · intro msg hm
    rw [sendMessage_issued_getLast cfg _ s h1 h3]
    simp [settleMsgOf, tryResult, errorTextOf, hm]
  · intro msg hm1 hm2 hm3
    rw [sendMessage_issued_getLast cfg _ s h1 h3]
    simp [settleMsgOf, tryResult, errorTextOf, hm1, hm2, hm3]
  · rw [sendMessage_issued_getLast cfg _ s h1 h3]
    rfl

theorem error_text_mapping_witness :
    ((sendMessage (some "u") (FetchOutcome.response 404 (.ok Json.null))
        { initialState with inputMessage := "hi" }).1.messages).getLast? =
      some ⟨3, Json.str notFoundText, Sender.agent, true⟩ := by
  have h := (error_text_mapping (some "u") { initialState with inputMessage := "hi" }
      (by decide) rfl).2.1 (.ok Json.null)
  simpa using h

/-- C5 counterexample: HTTP status 503 is in the 500 class, but the
substring probe `error.message.includes('500')` does not match
`HTTP error! status: 503`, so the generic wording is shown, not the
internal-error wording the claim requires. -/
theorem status_503_not_internal :
    ((((sendMessage (some "u") (FetchOutcome.response 503 (.ok Json.null))
        { initialState with inputMessage := "hi" }).1.messages).getLast?).map Message.text =
      some (Json.str (genericErrPre ++ httpErrorMsg 503))) ∧
    genericErrPre ++ httpErrorMsg 503 ≠ internalErrText := by
  refine ⟨rfl, by decide⟩

/-- C6: an accepted submission while the endpoint configuration is
absent appends exactly the fixed configuration-missing error message,
marked as an error, and performs zero fetch invocations. -/
theorem missing_config_short_circuit (cfg : Option String) (o : FetchOutcome) (s : ChatState)
    (h1 : ¬(jsTrim s.inputMessage = "" ∨ s.isLoading = true)) (h3 : cfgTruthy cfg = false) :
    (sendMessage cfg o s).1.messages = s.messages ++ [configErrMsgOf s] ∧
    (configErrMsgOf s).text = Json.str configErrorText ∧
    (configErrMsgOf s).isError = true ∧
    (sendMessage cfg o s).2 = 0 := by
  rw [sendMessage_config cfg o s h1 h3]
  exact ⟨rfl, rfl, rfl, rfl⟩

theorem missing_config_short_circuit_witness :
    (sendMessage none (FetchOutcome.reject JsError.nonError)
        { initialState with inputMessage := "hi" }).2 = 0 := by
  have h := missing_config_short_circuit none (FetchOutcome.reject JsError.nonError)
      { initialState with inputMessage := "hi" } (by decide) rfl
  exact h.2.2.2

/-- C7: from a quiescent state, an accepted submission has the loading
flag true in the state holding between issue and settlement, and after
`sendMessage` runs to completion — whatever the fetch outcome, success,
HTTP failure, network failure or malformed body — the flag is false
again; rejected and configuration-error submissions never set it. -/
theorem pending_flag_lifecycle (cfg : Option String) (o : FetchOutcome) (s : ChatState)
    (h : s.isLoading = false) :
    (¬(jsTrim s.inputMessage = "" ∨ s.isLoading = true) → cfgTruthy cfg = true →
      (sendMessageStart cfg s).1.isLoading = true) ∧
    (sendMessage cfg o s).1.isLoading = false := by
  constructor
  · intro h1 h3
    rw [sendMessageStart_issued cfg s h1 h3]
  · by_cases hg : jsTrim s.inputMessage = "" ∨ s.isLoading = true
    · rw [sendMessage_guard cfg o s hg]
      exact h
    · by_cases hc : cfgTruthy cfg = true
      · rw [sendMessage_issued cfg o s hg hc]
      · have hc' : cfgTruthy cfg = false := by
          cases hcv : cfgTruthy cfg
          · rfl
          · exact absurd hcv hc
        rw [sendMessage_config cfg o s hg hc']
        exact h

theorem pending_flag_lifecycle_witness :
    (sendMessageStart (some "u") { initialState with inputMessage := "hi" }).1.isLoading = true ∧
    (sendMessage (some "u") (FetchOutcome.reject JsError.nonError)
        { initialState with inputMessage := "hi" }).1.isLoading = false := by
  have h := pending_flag_lifecycle (some "u") (FetchOutcome.reject JsError.nonError)
      { initialState with inputMessage := "hi" } rfl
  exact ⟨h.1 (by decide) rfl, h.2⟩

/-- C8: along every sequence of session operations (edits, submissions
with arbitrary fetch outcomes, theme toggles) under the session's fixed
endpoint configuration, the message ids in the store are strictly
increasing in order of appending — so every newly appended message's id
exceeds all earlier ones — and no two messages share an id. -/
theorem ids_monotonic_nodup (cfg : Option String) (events : List Event) :
    List.Pairwise (· < ·) (idsOf (runEvents cfg events)) ∧
    (idsOf (runEvents cfg events)).Nodup := by
  obtain ⟨hp, _⟩ := storeInv_runEvents cfg events
  exact ⟨hp, hp.imp fun h => Nat.ne_of_lt h⟩

/-- C10: for every accepted submission, the appended user message's text
and the `message` field of the POSTed JSON body are both exactly the raw
(untrimmed) draft text, and the draft is cleared in the resulting state. -/
theorem raw_input_captured (cfg : Option String) (s : ChatState)
    (h1 : ¬(jsTrim s.inputMessage = "" ∨ s.isLoading = true)) (h3 : cfgTruthy cfg = true) :
    (sendMessageStart cfg s).2 =
      StartOutcome.issued (Json.obj [("message", Json.str s.inputMessage)]) ∧
    ((sendMessageStart cfg s).1.messages).getLast? =
      some ⟨s.messages.length + 1, Json.str s.inputMessage, Sender.user, false⟩ ∧
    (sendMessageStart cfg s).1.inputMessage = "" := by
  rw [sendMessageStart_issued cfg s h1 h3]
  refine ⟨rfl, ?_, rfl⟩
  exact getLast_append_one s.messages (userMsgOf s)

theorem raw_input_captured_witness :
    (sendMessageStart (some "u") { initialState with inputMessage := "  hi  " }).2 =
      StartOutcome.issued (Json.obj [("message", Json.str "  hi  ")]) := by
  have h := raw_input_captured (some "u") { initialState with inputMessage := "  hi  " }
      (by decide) rfl
  exact h.1

